import Mathlib

/-!
Verification of the Xbox controller polling adapter
(`src/game_controllers/joysticks/xbox_controller/xbox_controller_windows.py`).

The raw device handle (a pygame joystick) is modelled as a record of total
read functions; analog axis values are exact rationals.  The event pump and
every raw read performed by `get_state` are recorded in an explicit trace so
that effect claims (pump count, re-reading of every index) can be stated.
-/

/-- Joystick models the external raw device handle (pygame joystick object):
per-poll primitives `get_name`, `get_numaxes`, `get_numbuttons`, `get_axis`,
`get_button`, `get_hat`. -/
structure Joystick where
  get_name : String
  get_numaxes : ℕ
  get_numbuttons : ℕ
  get_axis : ℕ → ℚ
  get_button : ℕ → Bool
  get_hat : ℕ → ℤ × ℤ

/-- ButtonKeys embeds the `_ButtonKeys` enum (declaration order preserved). -/
inductive ButtonKeys where
  | A
  | B
  | X
  | Y
  | LB
  | RB
  | VIEW
  | MENU
  | LEFT_STICK
  | RIGHT_STICK
  | SCREENSHOT
  deriving DecidableEq, Fintype

/-- Integer value of each `_ButtonKeys` member, as in the source. -/
def ButtonKeys.value : ButtonKeys → ℕ
  | .A => 0
  | .B => 1
  | .X => 2
  | .Y => 3
  | .LB => 4
  | .RB => 5
  | .VIEW => 6
  | .MENU => 7
  | .LEFT_STICK => 8
  | .RIGHT_STICK => 9
  | .SCREENSHOT => 11

/-- Member name of each `_ButtonKeys` member (`button.name` in Python). -/
def ButtonKeys.name : ButtonKeys → String
  | .A => "A"
  | .B => "B"
  | .X => "X"
  | .Y => "Y"
  | .LB => "LB"
  | .RB => "RB"
  | .VIEW => "VIEW"
  | .MENU => "MENU"
  | .LEFT_STICK => "LEFT_STICK"
  | .RIGHT_STICK => "RIGHT_STICK"
  | .SCREENSHOT => "SCREENSHOT"

/-- Members of `_ButtonKeys` in declaration order (Python `Enum` iterates in
declaration order: `for button in _ButtonKeys`). -/
def ButtonKeys.all : List ButtonKeys :=
  [.A, .B, .X, .Y, .LB, .RB, .VIEW, .MENU, .LEFT_STICK, .RIGHT_STICK, .SCREENSHOT]

/-- Value lookup `_ButtonKeys(i)`: `some` member on a valid value, `none`
where Python raises `ValueError`. -/
def ButtonKeys.ofValue : ℕ → Option ButtonKeys
  | 0 => some .A
  | 1 => some .B
  | 2 => some .X
  | 3 => some .Y
  | 4 => some .LB
  | 5 => some .RB
  | 6 => some .VIEW
  | 7 => some .MENU
  | 8 => some .LEFT_STICK
  | 9 => some .RIGHT_STICK
  | 11 => some .SCREENSHOT
  | _ => none

/-- AxisKeys embeds the `_AxisKeys` enum (declaration order preserved). -/
inductive AxisKeys where
  | LEFT_STICK_HORIZONTAL
  | LEFT_STICK_VERTICAL
  | LEFT_ANALOG_TRIGGER
  | RIGHT_STICK_HORIZONTAL
  | RIGHT_STICK_VERTICAL
  | RIGHT_ANALOG_TRIGGER
  deriving DecidableEq, Fintype

/-- Integer value of each `_AxisKeys` member, as in the source. -/
def AxisKeys.value : AxisKeys → ℕ
  | .LEFT_STICK_HORIZONTAL => 0
  | .LEFT_STICK_VERTICAL => 1
  | .LEFT_ANALOG_TRIGGER => 4
  | .RIGHT_STICK_HORIZONTAL => 2
  | .RIGHT_STICK_VERTICAL => 3
  | .RIGHT_ANALOG_TRIGGER => 5

/-- Value lookup `_AxisKeys(i)`: `some` member on a valid value, `none`
where Python raises `ValueError`. -/
def AxisKeys.ofValue : ℕ → Option AxisKeys
  | 0 => some .LEFT_STICK_HORIZONTAL
  | 1 => some .LEFT_STICK_VERTICAL
  | 2 => some .RIGHT_STICK_HORIZONTAL
  | 3 => some .RIGHT_STICK_VERTICAL
  | 4 => some .LEFT_ANALOG_TRIGGER
  | 5 => some .RIGHT_ANALOG_TRIGGER
  | _ => none

/-- DPadKeys embeds the `_DPadKeys` enum. -/
inductive DPadKeys where
  | HORIZONTAL
  | VERTICAL
  deriving DecidableEq

/-- Integer value of each `_DPadKeys` member. -/
def DPadKeys.value : DPadKeys → ℕ
  | .HORIZONTAL => 0
  | .VERTICAL => 1

/-- Modelled from the spec: `StickState` (module `game_controllers.models`,
not under `src/`) — two floats `horizontal_right` and `vertical_down`. -/
structure StickState where
  horizontal_right : ℚ
  vertical_down : ℚ
  deriving DecidableEq

/-- Modelled from the spec: `ControllerAxesState` (module
`game_controllers.models`, not under `src/`) — left stick, right stick and
the two analog triggers. -/
structure ControllerAxesState where
  left_stick : StickState
  right_stick : StickState
  left_analog_trigger : ℚ
  right_analog_trigger : ℚ
  deriving DecidableEq

/-- ButtonPressedState embeds the `_ButtonPressedState` dataclass: one bool
per known button, fields in dataclass declaration order (note SCREENSHOT is
declared before LEFT_STICK and RIGHT_STICK).  Its abstract base class
`ControllerButtonPressedState` is not under `src/` and is modelled from the
spec as a fieldless interface, so `dataclasses.fields` sees exactly these
eleven fields in this order. -/
structure ButtonPressedState where
  A : Bool
  B : Bool
  X : Bool
  Y : Bool
  LB : Bool
  RB : Bool
  VIEW : Bool
  MENU : Bool
  SCREENSHOT : Bool
  LEFT_STICK : Bool
  RIGHT_STICK : Bool
  deriving DecidableEq

/-- Field list of `_ButtonPressedState` in dataclass declaration order, with
the field name and the field's value — this is what
`dataclasses.fields(self)` + `getattr` iterate over. -/
def ButtonPressedState.fieldList (s : ButtonPressedState) : List (String × Bool) :=
  [("A", s.A), ("B", s.B), ("X", s.X), ("Y", s.Y), ("LB", s.LB), ("RB", s.RB),
   ("VIEW", s.VIEW), ("MENU", s.MENU), ("SCREENSHOT", s.SCREENSHOT),
   ("LEFT_STICK", s.LEFT_STICK), ("RIGHT_STICK", s.RIGHT_STICK)]

/-- Embeds `_ButtonPressedState.get_pressed_buttons`:
`[field.name for field in fields(self) if getattr(self, field.name)]`. -/
def ButtonPressedState.get_pressed_buttons (s : ButtonPressedState) : List String :=
  s.fieldList.filterMap (fun p => if p.2 then some p.1 else none)

/-- Accessor from a `_ButtonKeys` member to the corresponding
`_ButtonPressedState` field (used only to state properties). -/
def ButtonPressedState.read (s : ButtonPressedState) : ButtonKeys → Bool
  | .A => s.A
  | .B => s.B
  | .X => s.X
  | .Y => s.Y
  | .LB => s.LB
  | .RB => s.RB
  | .VIEW => s.VIEW
  | .MENU => s.MENU
  | .LEFT_STICK => s.LEFT_STICK
  | .RIGHT_STICK => s.RIGHT_STICK
  | .SCREENSHOT => s.SCREENSHOT

/-- Fields of `_ButtonPressedState` in dataclass declaration order, as
`_ButtonKeys` members. -/
def fieldDeclOrder : List ButtonKeys :=
  [.A, .B, .X, .Y, .LB, .RB, .VIEW, .MENU, .SCREENSHOT, .LEFT_STICK, .RIGHT_STICK]

/-- Modelled from the spec: `ControllerDPadState` (module
`game_controllers.models`, not under `src/`) — two integers, horizontal and
vertical, in positional order as constructed by `get_state`. -/
structure ControllerDPadState where
  horizontal : ℤ
  vertical : ℤ
  deriving DecidableEq

/-- Modelled from the spec: `ControllerState` (module
`game_controllers.models`, not under `src/`) — immutable aggregate of axes,
buttons and d-pad. -/
structure ControllerState where
  axes : ControllerAxesState
  buttons : ButtonPressedState
  d_pad : ControllerDPadState
  deriving DecidableEq

/-- Button indices with no assigned button on the controller
(`VOID_BUTTONS` in the source). -/
def VOID_BUTTONS : List ℕ := [10, 12, 13, 14, 15]

/-- Observable raw-handle operations performed by `get_state`, recorded in
program order: the event pump (`pygame_connector.get_events()`) and each
indexed read. -/
inductive Event where
  | pump
  | readAxis (i : ℕ)
  | readButton (i : ℕ)
  | readHat (i : ℕ)
  deriving DecidableEq

/-- Python `abs` on an exact rational, written so that it evaluates by
kernel reduction. -/
def pyAbs (q : ℚ) : ℚ :=
  if q < 0 then -q else q

/-- Dead-zone assignment applied to each analog channel in `get_state`:
`if abs(x) < self.dead_zone: x = 0.0`. -/
def applyDeadZone (dead_zone raw : ℚ) : ℚ :=
  if pyAbs raw < dead_zone then 0 else raw

/-- Python `str.startswith`, on the character lists of the strings. -/
def pyStartsWith (s pre : String) : Bool :=
  pre.toList.isPrefixOf s.toList

/-- Indexing `hat[i]` for the two-component hat tuple. -/
def hatComponent (hat : ℤ × ℤ) (i : ℕ) : ℤ :=
  if i = 0 then hat.1 else hat.2

/-- Resolution loop body shared by the two mapping tables: calling the enum
constructor on each listed index in order, failing like Python's
`ValueError` at the first index that is not a valid enum value. -/
def resolveIds {α : Type} (enumName : String) (ofValue : ℕ → Option α) :
    List ℕ → Except String (List (ℕ × α))
  | [] => .ok []
  | i :: rest =>
    match ofValue i with
    | none => .error (toString i ++ " is not a valid " ++ enumName)
    | some k => (resolveIds enumName ofValue rest).map (fun l => (i, k) :: l)

/-- WindowsXboxPyGameJoystick: the adapter's instance state after a
successful `__init__` — the raw handle plus the tables and constants the
constructor assigns to `self`. -/
structure WindowsXboxPyGameJoystick where
  joystick : Joystick
  axis_states : List ℚ
  button_states : List Bool
  axis_ids : List (ℕ × AxisKeys)
  button_ids : List (ℕ × ButtonKeys)
  dead_zone : ℚ

/-- Embeds `WindowsXboxPyGameJoystick.__init__` (platform/device identity
validation and mapping-table construction).  `platform` models
`sys.platform`; a raised `ValueError` becomes `Except.error` carrying the
exception message, so an error value means the adapter was never produced.
The constant `0.07` is the exact rational `7/100`, written `Rat.divInt 7 100`
so that it evaluates by kernel reduction. -/
def WindowsXboxPyGameJoystick.init (platform : String) (j : Joystick) :
    Except String WindowsXboxPyGameJoystick :=
  let name := j.get_name
  if pyStartsWith platform "win" = false then
    .error "This class is only supported on Windows systems"
  else if name ≠ "Xbox Series X Controller" then
    .error ("Xbox controller not detected. Controller detected was " ++ name)
  else
    match resolveIds "_AxisKeys" AxisKeys.ofValue (List.range j.get_numaxes) with
    | .error m => .error m
    | .ok axis_ids =>
      match resolveIds "_ButtonKeys" ButtonKeys.ofValue
          ((List.range j.get_numbuttons).filter (fun i => decide (i ∉ VOID_BUTTONS))) with
      | .error m => .error m
      | .ok button_ids =>
        .ok { joystick := j
              axis_states := List.replicate j.get_numaxes 0
              button_states := List.replicate j.get_numbuttons false
              axis_ids := axis_ids
              button_ids := button_ids
              dead_zone := Rat.divInt 7 100 }

/-- Raw-handle operations performed by one `get_state` call, in program
order: the event pump; the six axis reads (LSH, LSV, RSH, RSV, LTrig,
RTrig); the eleven button reads of the `_ButtonPressedState` constructor in
argument order (A .. MENU, SCREENSHOT, LEFT_STICK, RIGHT_STICK); the hat
read; the eleven button reads of the pressed-button comprehension iterating
`_ButtonKeys` in declaration order. -/
def getStateTrace : List Event :=
  [Event.pump]
  ++ [AxisKeys.LEFT_STICK_HORIZONTAL, AxisKeys.LEFT_STICK_VERTICAL,
      AxisKeys.RIGHT_STICK_HORIZONTAL, AxisKeys.RIGHT_STICK_VERTICAL,
      AxisKeys.LEFT_ANALOG_TRIGGER, AxisKeys.RIGHT_ANALOG_TRIGGER].map
        (fun k => Event.readAxis k.value)
  ++ [ButtonKeys.A, ButtonKeys.B, ButtonKeys.X, ButtonKeys.Y, ButtonKeys.LB,
      ButtonKeys.RB, ButtonKeys.VIEW, ButtonKeys.MENU, ButtonKeys.SCREENSHOT,
      ButtonKeys.LEFT_STICK, ButtonKeys.RIGHT_STICK].map
        (fun b => Event.readButton b.value)
  ++ [Event.readHat 0]
  ++ ButtonKeys.all.map (fun b => Event.readButton b.value)

/-- Embeds `WindowsXboxPyGameJoystick.get_state`.  Returns the built
`ControllerState`, the trace of raw-handle operations in program order
(event pump, then every read as the source performs it), and the adapter
itself (the method assigns to no instance attribute). -/
def WindowsXboxPyGameJoystick.get_state (self : WindowsXboxPyGameJoystick) :
    ControllerState × List Event × WindowsXboxPyGameJoystick :=
  let j := self.joystick
  let left_stick_horizontal :=
    applyDeadZone self.dead_zone (j.get_axis AxisKeys.LEFT_STICK_HORIZONTAL.value)
  let left_stick_vertical :=
    applyDeadZone self.dead_zone (j.get_axis AxisKeys.LEFT_STICK_VERTICAL.value)
  let right_stick_horizontal :=
    applyDeadZone self.dead_zone (j.get_axis AxisKeys.RIGHT_STICK_HORIZONTAL.value)
  let right_stick_vertical :=
    applyDeadZone self.dead_zone (j.get_axis AxisKeys.RIGHT_STICK_VERTICAL.value)
  let left_analog_trigger :=
    applyDeadZone self.dead_zone (j.get_axis AxisKeys.LEFT_ANALOG_TRIGGER.value)
  let right_analog_trigger :=
    applyDeadZone self.dead_zone (j.get_axis AxisKeys.RIGHT_ANALOG_TRIGGER.value)
  let axes : ControllerAxesState :=
    { left_stick :=
        { horizontal_right := left_stick_horizontal
          vertical_down := left_stick_vertical }
      right_stick :=
        { horizontal_right := right_stick_horizontal
          vertical_down := right_stick_vertical }
      left_analog_trigger := left_analog_trigger
      right_analog_trigger := right_analog_trigger }
  let buttons : ButtonPressedState :=
    { A := j.get_button ButtonKeys.A.value
      B := j.get_button ButtonKeys.B.value
      X := j.get_button ButtonKeys.X.value
      Y := j.get_button ButtonKeys.Y.value
      LB := j.get_button ButtonKeys.LB.value
      RB := j.get_button ButtonKeys.RB.value
      VIEW := j.get_button ButtonKeys.VIEW.value
      MENU := j.get_button ButtonKeys.MENU.value
      SCREENSHOT := j.get_button ButtonKeys.SCREENSHOT.value
      LEFT_STICK := j.get_button ButtonKeys.LEFT_STICK.value
      RIGHT_STICK := j.get_button ButtonKeys.RIGHT_STICK.value }
  let hat := j.get_hat 0
  let d_pad_state : ControllerDPadState :=
    { horizontal := hatComponent hat DPadKeys.HORIZONTAL.value
      vertical := hatComponent hat DPadKeys.VERTICAL.value }
  let pressed_button_ids :=
    (ButtonKeys.all.filter (fun button => j.get_button button.value)).map
      (fun button => button.value)
  let _pressed_buttons := pressed_button_ids.filterMap ButtonKeys.ofValue
  (ControllerState.mk axes buttons d_pad_state, getStateTrace, self)

/-- Device name reported by a genuine controller in the fixtures. -/
def expectedName : String := "Xbox Series X Controller"

/-- Constant button read used by fixtures: no button pressed. -/
def noButtons : ℕ → Bool := fun _ => false

/-- Constant hat read used by fixtures: centered d-pad. -/
def centeredHat : ℕ → ℤ × ℤ := fun _ => (0, 0)

/-- Constant axis read used by fixtures (`Rat.divInt` keeps the value
kernel-computable). -/
def halfAxes : ℕ → ℚ := fun _ => Rat.divInt 1 2

/-- Fixture for the end-to-end axes scenario: raw axis readings
`[0.03, -0.5, 0.02, 0.9, 0.0, 0.2]` at indices 0..5. -/
def jScenario : Joystick :=
  { get_name := expectedName
    get_numaxes := 6
    get_numbuttons := 16
    get_axis := fun i =>
      [Rat.divInt 3 100, Rat.divInt (-1) 2, Rat.divInt 1 50, Rat.divInt 9 10,
       0, Rat.divInt 1 5].getD i 0
    get_button := noButtons
    get_hat := centeredHat }

/-- Fixture reporting a device name other than the expected model string. -/
def jWrongName : Joystick :=
  { get_name := "Generic Gamepad"
    get_numaxes := 6
    get_numbuttons := 16
    get_axis := halfAxes
    get_button := noButtons
    get_hat := centeredHat }

/-- Fixture reporting seven axes: axis index 6 is not a valid `_AxisKeys`
value. -/
def jSevenAxes : Joystick :=
  { get_name := expectedName
    get_numaxes := 7
    get_numbuttons := 16
    get_axis := halfAxes
    get_button := noButtons
    get_hat := centeredHat }

/-- Fixture whose hat reads `(1, -1)`. -/
def jDiagonalHat : Joystick :=
  { get_name := expectedName
    get_numaxes := 6
    get_numbuttons := 16
    get_axis := halfAxes
    get_button := noButtons
    get_hat := fun _ => (1, -1) }

/-- Adapter owning `jDiagonalHat`, as `__init__` builds it. -/
def aDiagonalHat : WindowsXboxPyGameJoystick :=
  { joystick := jDiagonalHat
    axis_states := List.replicate 6 0
    button_states := List.replicate 16 false
    axis_ids :=
      [(0, .LEFT_STICK_HORIZONTAL), (1, .LEFT_STICK_VERTICAL),
       (2, .RIGHT_STICK_HORIZONTAL), (3, .RIGHT_STICK_VERTICAL),
       (4, .LEFT_ANALOG_TRIGGER), (5, .RIGHT_ANALOG_TRIGGER)]
    button_ids :=
      [(0, .A), (1, .B), (2, .X), (3, .Y), (4, .LB), (5, .RB), (6, .VIEW),
       (7, .MENU), (8, .LEFT_STICK), (9, .RIGHT_STICK), (11, .SCREENSHOT)]
    dead_zone := Rat.divInt 7 100 }

/-- Fixture reporting 6 axes and 16 buttons. -/
def jFullCounts : Joystick :=
  { get_name := expectedName
    get_numaxes := 6
    get_numbuttons := 16
    get_axis := halfAxes
    get_button := noButtons
    get_hat := centeredHat }

/-- Fixture reporting 5 axes and 10 buttons, with the same raw readings as
`jFullCounts`. -/
def jSmallCounts : Joystick :=
  { get_name := expectedName
    get_numaxes := 5
    get_numbuttons := 10
    get_axis := halfAxes
    get_button := noButtons
    get_hat := centeredHat }

/-- The adapter `__init__` produces for `jFullCounts` on Windows. -/
def aFullCounts : WindowsXboxPyGameJoystick :=
  { joystick := jFullCounts
    axis_states := List.replicate 6 0
    button_states := List.replicate 16 false
    axis_ids :=
      [(0, .LEFT_STICK_HORIZONTAL), (1, .LEFT_STICK_VERTICAL),
       (2, .RIGHT_STICK_HORIZONTAL), (3, .RIGHT_STICK_VERTICAL),
       (4, .LEFT_ANALOG_TRIGGER), (5, .RIGHT_ANALOG_TRIGGER)]
    button_ids :=
      [(0, .A), (1, .B), (2, .X), (3, .Y), (4, .LB), (5, .RB), (6, .VIEW),
       (7, .MENU), (8, .LEFT_STICK), (9, .RIGHT_STICK), (11, .SCREENSHOT)]
    dead_zone := Rat.divInt 7 100 }

/-- The adapter `__init__` produces for `jSmallCounts` on Windows: its
mapping tables and state arrays differ from those of `aFullCounts`. -/
def aSmallCounts : WindowsXboxPyGameJoystick :=
  { joystick := jSmallCounts
    axis_states := List.replicate 5 0
    button_states := List.replicate 10 false
    axis_ids :=
      [(0, .LEFT_STICK_HORIZONTAL), (1, .LEFT_STICK_VERTICAL),
       (2, .RIGHT_STICK_HORIZONTAL), (3, .RIGHT_STICK_VERTICAL),
       (4, .LEFT_ANALOG_TRIGGER)]
    button_ids :=
      [(0, .A), (1, .B), (2, .X), (3, .Y), (4, .LB), (5, .RB), (6, .VIEW),
       (7, .MENU), (8, .LEFT_STICK), (9, .RIGHT_STICK)]
    dead_zone := Rat.divInt 7 100 }

/-- Pressed state with exactly SCREENSHOT and LEFT_STICK pressed. -/
def sScreenshotLeftStick : ButtonPressedState :=
  { A := false, B := false, X := false, Y := false, LB := false, RB := false
    VIEW := false, MENU := false, SCREENSHOT := true, LEFT_STICK := true
    RIGHT_STICK := false }

/-- Pressed state with exactly A and X pressed. -/
def sAandX : ButtonPressedState :=
  { A := true, B := false, X := true, Y := false, LB := false, RB := false
    VIEW := false, MENU := false, SCREENSHOT := false, LEFT_STICK := false
    RIGHT_STICK := false }

/-- Substring test on character lists: true iff `needle` occurs contiguously
in `hay` (used to state that an error message includes a detected name). -/
def containsSub (needle : List Char) : List Char → Bool
  | [] => needle.isEmpty
  | c :: t => needle.isPrefixOf (c :: t) || containsSub needle t

theorem isPrefixOf_self (l : List Char) : l.isPrefixOf l = true := by
  induction l with
  | nil => rfl
  | cons c t ih => simp [List.isPrefixOf, ih]

theorem containsSub_append (l pre : List Char) : containsSub l (pre ++ l) = true := by
  induction pre with
  | nil =>
    cases l with
    | nil => rfl
    | cons c t => simp [containsSub, isPrefixOf_self]
  | cons c p ih => simp [containsSub, ih]

theorem pyAbs_eq_abs (q : ℚ) : pyAbs q = |q| := by
  unfold pyAbs
  split
  · exact (abs_of_neg (by assumption)).symm
  · exact (abs_of_nonneg (not_lt.mp (by assumption))).symm

theorem applyDeadZone_eq_abs (dz r : ℚ) :
    applyDeadZone dz r = if |r| < dz then 0 else r := by
  rw [applyDeadZone, pyAbs_eq_abs]

theorem dead_zone_value : Rat.divInt 7 100 = (7 : ℚ) / 100 := by
  rw [Rat.divInt_eq_div]; norm_num

theorem resolveIds_error_of_bad {α : Type} (n : String) (f : ℕ → Option α) :
    ∀ l : List ℕ, (∃ i ∈ l, f i = none) →
      ∃ m, resolveIds n f l = .error m := by
  intro l
  induction l with
  | nil => rintro ⟨i, hi, -⟩; cases hi
  | cons x t ih =>
    rintro ⟨i, hi, hnone⟩
    cases hfx : f x with
    | none =>
      exact ⟨toString x ++ " is not a valid " ++ n, by simp [resolveIds, hfx]⟩
    | some k =>
      rcases List.mem_cons.mp hi with rfl | hit
      · rw [hfx] at hnone; cases hnone
      · obtain ⟨m, hm⟩ := ih ⟨i, hit, hnone⟩
        exact ⟨m, by simp [resolveIds, hfx, hm, Except.map]⟩

theorem init_ok_fields (p : String) (j : Joystick) (a : WindowsXboxPyGameJoystick)
    (h : WindowsXboxPyGameJoystick.init p j = .ok a) :
    a.joystick = j ∧ a.dead_zone = Rat.divInt 7 100 := by
  simp only [WindowsXboxPyGameJoystick.init] at h
  split at h
  · simp at h
  · split at h
    · simp at h
    · split at h
      · simp at h
      · split at h
        · simp at h
        · injection h with h2
          cases h2
          exact ⟨rfl, rfl⟩

theorem get_state_fst_congr (a b : WindowsXboxPyGameJoystick)
    (hax : a.joystick.get_axis = b.joystick.get_axis)
    (hbtn : a.joystick.get_button = b.joystick.get_button)
    (hhat : a.joystick.get_hat = b.joystick.get_hat)
    (hdz : a.dead_zone = b.dead_zone) :
    (a.get_state).1 = (b.get_state).1 := by
  simp only [WindowsXboxPyGameJoystick.get_state]
  rw [hax, hbtn, hhat, hdz]

theorem fieldList_eq_declOrder (s : ButtonPressedState) :
    s.fieldList = fieldDeclOrder.map (fun k => (k.name, s.read k)) := rfl

theorem filterMap_pressed (r : ButtonKeys → Bool) :
    ∀ l : List ButtonKeys,
      (l.map (fun k => (k.name, r k))).filterMap
          (fun p => if p.2 then some p.1 else none)
        = (l.filter r).map ButtonKeys.name := by
  intro l
  induction l with
  | nil => rfl
  | cons k t ih =>
    simp only [List.map_cons, List.filterMap_cons, List.filter_cons]
    cases hrk : r k <;> simp [hrk, ih]

/-- Claim C1: for every analog reading `r`, the dead-zone normalization with
threshold 0.07 yields exactly 0 when `abs r < 0.07` and yields `r` unchanged
when `abs r >= 0.07`; and `get_state` applies it with the adapter's
threshold independently to each of the six analog channels (both stick axes
of both sticks and the two triggers). -/
theorem dead_zone_normalization (r : ℚ) (a : WindowsXboxPyGameJoystick)
    (hdz : a.dead_zone = (7 : ℚ) / 100) :
    (|r| < (7 : ℚ) / 100 → applyDeadZone a.dead_zone r = 0) ∧
    ((7 : ℚ) / 100 ≤ |r| → applyDeadZone a.dead_zone r = r) ∧
    (a.get_state).1.axes.left_stick.horizontal_right
      = applyDeadZone a.dead_zone (a.joystick.get_axis AxisKeys.LEFT_STICK_HORIZONTAL.value) ∧
    (a.get_state).1.axes.left_stick.vertical_down
      = applyDeadZone a.dead_zone (a.joystick.get_axis AxisKeys.LEFT_STICK_VERTICAL.value) ∧
    (a.get_state).1.axes.right_stick.horizontal_right
      = applyDeadZone a.dead_zone (a.joystick.get_axis AxisKeys.RIGHT_STICK_HORIZONTAL.value) ∧
    (a.get_state).1.axes.right_stick.vertical_down
      = applyDeadZone a.dead_zone (a.joystick.get_axis AxisKeys.RIGHT_STICK_VERTICAL.value) ∧
    (a.get_state).1.axes.left_analog_trigger
      = applyDeadZone a.dead_zone (a.joystick.get_axis AxisKeys.LEFT_ANALOG_TRIGGER.value) ∧
    (a.get_state).1.axes.right_analog_trigger
      = applyDeadZone a.dead_zone (a.joystick.get_axis AxisKeys.RIGHT_ANALOG_TRIGGER.value) := by
  refine ⟨?_, ?_, rfl, rfl, rfl, rfl, rfl, rfl⟩
  · intro h
    rw [hdz, applyDeadZone_eq_abs, if_pos h]
  · intro h
    rw [hdz, applyDeadZone_eq_abs, if_neg (not_lt.mpr h)]

/-- Witness for C1 at concrete inputs: reading 0.03 is zeroed, reading 0.5
passes through, on an adapter whose threshold is 0.07. -/
theorem dead_zone_normalization_witness :
    applyDeadZone aFullCounts.dead_zone (Rat.divInt 3 100) = 0 ∧
    applyDeadZone aFullCounts.dead_zone (Rat.divInt 1 2) = Rat.divInt 1 2 := by
  have habs3 : |Rat.divInt 3 100| < (7 : ℚ) / 100 := by
    rw [Rat.divInt_eq_div, abs_of_nonneg (by norm_num)]
    norm_num
  have habs2 : (7 : ℚ) / 100 ≤ |Rat.divInt 1 2| := by
    rw [Rat.divInt_eq_div, abs_of_nonneg (by norm_num)]
    norm_num
  exact ⟨(dead_zone_normalization (Rat.divInt 3 100) aFullCounts dead_zone_value).1 habs3,
         (dead_zone_normalization (Rat.divInt 1 2) aFullCounts dead_zone_value).2.1 habs2⟩

/-- Claim C2: with raw axis readings [0.03, -0.5, 0.02, 0.9, 0.0, 0.2] at
indices 0..5, the constructed adapter's `get_state` returns an axes state
with left stick (0, -0.5), right stick (0, 0.9), left trigger 0 and right
trigger 0.2. -/
theorem end_to_end_axes_scenario :
    ((WindowsXboxPyGameJoystick.init "win32" jScenario).toOption.map
      (fun a => ((a.get_state).1).axes)) =
    some { left_stick := { horizontal_right := 0, vertical_down := -1 / 2 }
           right_stick := { horizontal_right := 0, vertical_down := 9 / 10 }
           left_analog_trigger := 0
           right_analog_trigger := 1 / 5 } := by
  have h2 : (-1 / 2 : ℚ) = Rat.divInt (-1) 2 := by rw [Rat.divInt_eq_div]; norm_num
  have h9 : (9 / 10 : ℚ) = Rat.divInt 9 10 := by rw [Rat.divInt_eq_div]; norm_num
  have h5 : (1 / 5 : ℚ) = Rat.divInt 1 5 := by rw [Rat.divInt_eq_div]; norm_num
  rw [h2, h9, h5]
  decide

/-- Claim C3: constructing the adapter against a raw handle whose reported
device name differs from "Xbox Series X Controller" raises (the
construction returns an error and never produces an adapter value). -/
theorem name_mismatch_construction_fails (p : String) (j : Joystick)
    (hname : j.get_name ≠ "Xbox Series X Controller") :
    ∃ msg, WindowsXboxPyGameJoystick.init p j = .error msg := by
  by_cases hw : pyStartsWith p "win" = false
  · exact ⟨"This class is only supported on Windows systems",
      by simp [WindowsXboxPyGameJoystick.init, hw]⟩
  · exact ⟨"Xbox controller not detected. Controller detected was " ++ j.get_name,
      by simp [WindowsXboxPyGameJoystick.init, hw, hname]⟩

/-- Witness for C3: a handle named "Generic Gamepad" on Windows. -/
theorem name_mismatch_construction_fails_witness :
    ∃ msg, WindowsXboxPyGameJoystick.init "win32" jWrongName = .error msg :=
  name_mismatch_construction_fails "win32" jWrongName (by decide)

/-- Claim C4: if the reported axis count implies an axis index that is not a
valid `_AxisKeys` value, or the reported button count implies a non-void
button index that is not a valid `_ButtonKeys` value, construction fails
with an error rather than silently skipping the index. -/
theorem unmapped_index_construction_fails (p : String) (j : Joystick)
    (h : (∃ i, i < j.get_numaxes ∧ AxisKeys.ofValue i = none) ∨
         (∃ i, i < j.get_numbuttons ∧ i ∉ VOID_BUTTONS ∧ ButtonKeys.ofValue i = none)) :
    ∃ msg, WindowsXboxPyGameJoystick.init p j = .error msg := by
  by_cases hw : pyStartsWith p "win" = false
  · exact ⟨"This class is only supported on Windows systems",
      by simp [WindowsXboxPyGameJoystick.init, hw]⟩
  by_cases hn : j.get_name = "Xbox Series X Controller"
  · rcases h with ⟨i, hlt, hnone⟩ | ⟨i, hlt, hvoid, hnone⟩
    · obtain ⟨m, hm⟩ := resolveIds_error_of_bad "_AxisKeys" AxisKeys.ofValue
        (List.range j.get_numaxes) ⟨i, List.mem_range.mpr hlt, hnone⟩
      exact ⟨m, by simp [WindowsXboxPyGameJoystick.init, hw, hn, hm]⟩
    · cases hra : resolveIds "_AxisKeys" AxisKeys.ofValue (List.range j.get_numaxes) with
      | error m => exact ⟨m, by simp [WindowsXboxPyGameJoystick.init, hw, hn, hra]⟩
      | ok l =>
        obtain ⟨m, hm⟩ := resolveIds_error_of_bad "_ButtonKeys" ButtonKeys.ofValue
          ((List.range j.get_numbuttons).filter (fun i => !decide (i ∈ VOID_BUTTONS)))
          ⟨i, List.mem_filter.mpr ⟨List.mem_range.mpr hlt, by simpa using hvoid⟩, hnone⟩
        exact ⟨m, by simp [WindowsXboxPyGameJoystick.init, hw, hn, hra, hm]⟩
  · exact ⟨"Xbox controller not detected. Controller detected was " ++ j.get_name,
      by simp [WindowsXboxPyGameJoystick.init, hw, hn]⟩

/-- Witness for C4: a handle reporting seven axes fails, since axis index 6
is not a valid `_AxisKeys` value. -/
theorem unmapped_index_construction_fails_witness :
    ∃ msg, WindowsXboxPyGameJoystick.init "win32" jSevenAxes = .error msg :=
  unmapped_index_construction_fails "win32" jSevenAxes (Or.inl ⟨6, by decide, rfl⟩)

/-- Claim C5 counterexample: with exactly SCREENSHOT and LEFT_STICK pressed,
`get_pressed_buttons` returns ["SCREENSHOT", "LEFT_STICK"], which is not the
`_ButtonKeys` enum declaration order (that order lists LEFT_STICK before
SCREENSHOT), so the pressed list is not ordered by the declaration order of
the button key enumeration. -/
theorem pressed_order_enum_counterexample :
    sScreenshotLeftStick.get_pressed_buttons ≠
      (ButtonKeys.all.filter sScreenshotLeftStick.read).map ButtonKeys.name := by
  decide

/-- Claim C5 (amended): the pressed-button list is ordered by the
declaration order of the `_ButtonPressedState` fields (A, B, X, Y, LB, RB,
VIEW, MENU, SCREENSHOT, LEFT_STICK, RIGHT_STICK) — equivalently it is the
declaration-ordered field list filtered by pressedness — independent of read
order; in particular, if exactly A and X are pressed the list is
["A", "X"]. -/
theorem pressed_buttons_field_declaration_order (s : ButtonPressedState) :
    s.get_pressed_buttons = (fieldDeclOrder.filter s.read).map ButtonKeys.name ∧
    List.Sublist s.get_pressed_buttons (fieldDeclOrder.map ButtonKeys.name) ∧
    sAandX.get_pressed_buttons = ["A", "X"] := by
  have heq : s.get_pressed_buttons = (fieldDeclOrder.filter s.read).map ButtonKeys.name := by
    rw [ButtonPressedState.get_pressed_buttons, fieldList_eq_declOrder,
      filterMap_pressed s.read fieldDeclOrder]
  refine ⟨heq, ?_, by decide⟩
  rw [heq]
  exact (List.filter_sublist _).map _

/-- Claim C6: the d-pad values pass through `get_state` unmodified (the
snapshot's horizontal and vertical components equal the raw hat components,
with no dead-zone applied); in particular raw hat (1, -1) yields d-pad state
(1, -1). -/
theorem dpad_passthrough (a : WindowsXboxPyGameJoystick) :
    (a.get_state).1.d_pad.horizontal = (a.joystick.get_hat 0).1 ∧
    (a.get_state).1.d_pad.vertical = (a.joystick.get_hat 0).2 ∧
    (aDiagonalHat.get_state).1.d_pad = { horizontal := 1, vertical := -1 } :=
  ⟨rfl, rfl, by decide⟩

/-- Claim C7: with the raw handle's readings fixed, two successive
`get_state` calls return field-wise equal snapshots — `get_state` leaves the
adapter unchanged, so the snapshot is a deterministic function of the raw
values. -/
theorem get_state_deterministic (a : WindowsXboxPyGameJoystick) :
    (((a.get_state).2.2).get_state).1 = (a.get_state).1 ∧
    (a.get_state).2.2 = a :=
  ⟨rfl, rfl⟩

/-- Claim C8: every `get_state` call pumps the event queue exactly once,
before any read, and re-reads every mapped axis index, every button index of
the button key enumeration, and the hat. -/
theorem get_state_pump_and_reads (a : WindowsXboxPyGameJoystick) :
    (a.get_state).2.1 = getStateTrace ∧
    getStateTrace.count Event.pump = 1 ∧
    getStateTrace.head? = some Event.pump ∧
    (∀ k : AxisKeys, Event.readAxis k.value ∈ getStateTrace) ∧
    (∀ k : ButtonKeys, Event.readButton k.value ∈ getStateTrace) ∧
    Event.readHat 0 ∈ getStateTrace :=
  ⟨rfl, by decide, by decide, by decide, by decide, by decide⟩

/-- Claim C10: the snapshot is independent of the mapping dictionaries and
state arrays built at construction: any two successfully constructed
adapters whose raw handles return the same axis, button and hat values
yield equal snapshots, even when their reported axis/button counts (and
hence their internal tables) differ, because every read uses the fixed
enumeration index values. -/
theorem state_independent_of_mapping_tables
    (p₁ p₂ : String) (j₁ j₂ : Joystick) (a₁ a₂ : WindowsXboxPyGameJoystick)
    (h₁ : WindowsXboxPyGameJoystick.init p₁ j₁ = .ok a₁)
    (h₂ : WindowsXboxPyGameJoystick.init p₂ j₂ = .ok a₂)
    (hax : j₁.get_axis = j₂.get_axis)
    (hbtn : j₁.get_button = j₂.get_button)
    (hhat : j₁.get_hat = j₂.get_hat) :
    (a₁.get_state).1 = (a₂.get_state).1 := by
  obtain ⟨hj₁, hd₁⟩ := init_ok_fields _ _ _ h₁
  obtain ⟨hj₂, hd₂⟩ := init_ok_fields _ _ _ h₂
  exact get_state_fst_congr a₁ a₂ (by rw [hj₁, hj₂, hax]) (by rw [hj₁, hj₂, hbtn])
    (by rw [hj₁, hj₂, hhat]) (by rw [hd₁, hd₂])

/-- Witness for C10: two adapters built from handles reporting different
axis/button counts (6/16 vs 5/10) but identical readings produce equal
snapshots. -/
theorem state_independent_of_mapping_tables_witness :
    (aFullCounts.get_state).1 = (aSmallCounts.get_state).1 :=
  state_independent_of_mapping_tables "win32" "win32" jFullCounts jSmallCounts
    aFullCounts aSmallCounts rfl rfl rfl rfl rfl

/-- Claim C9 counterexample: on an unsupported platform ("linux") the
construction error message is the fixed string "This class is only supported
on Windows systems", which contains neither the detected platform nor the
detected device name ("Generic Gamepad"), so not every construction failure
carries a message that includes the detected device name/platform. -/
theorem construction_error_message_counterexample :
    WindowsXboxPyGameJoystick.init "linux" jWrongName =
      .error "This class is only supported on Windows systems" ∧
    containsSub "linux".toList
      "This class is only supported on Windows systems".toList = false ∧
    containsSub "Generic Gamepad".toList
      "This class is only supported on Windows systems".toList = false :=
  ⟨rfl, by decide, by decide⟩

/-- Claim C9 (amended): on Windows, a device-identity-mismatch failure
carries a message that includes the detected device name; on an unsupported
platform, the failure carries the fixed message "This class is only
supported on Windows systems", which does not include the detected
platform. -/
theorem construction_error_messages (p : String) (j : Joystick) :
    (pyStartsWith p "win" = true → j.get_name ≠ "Xbox Series X Controller" →
      WindowsXboxPyGameJoystick.init p j =
        .error ("Xbox controller not detected. Controller detected was " ++ j.get_name) ∧
      containsSub j.get_name.toList
        ("Xbox controller not detected. Controller detected was "
          ++ j.get_name).toList = true) ∧
    (pyStartsWith p "win" = false →
      WindowsXboxPyGameJoystick.init p j =
        .error "This class is only supported on Windows systems") := by
  constructor
  · intro hw hname
    constructor
    · simp [WindowsXboxPyGameJoystick.init, hw, hname]
    · rw [show ("Xbox controller not detected. Controller detected was "
          ++ j.get_name).toList =
          "Xbox controller not detected. Controller detected was ".toList
            ++ j.get_name.toList from String.data_append ..]
      exact containsSub_append _ _
  · intro hw
    simp [WindowsXboxPyGameJoystick.init, hw]

/-- Witness for the amended C9: the two failure kinds at concrete inputs. -/
theorem construction_error_messages_witness :
    WindowsXboxPyGameJoystick.init "win32" jWrongName =
      .error ("Xbox controller not detected. Controller detected was "
        ++ "Generic Gamepad") ∧
    WindowsXboxPyGameJoystick.init "linux" jWrongName =
      .error "This class is only supported on Windows systems" :=
  ⟨((construction_error_messages "win32" jWrongName).1 (by decide) (by decide)).1,
   (construction_error_messages "linux" jWrongName).2 (by decide)⟩
